import Mathlib

/-!
Verification of the EKS Kubernetes operations service
(`app/services/eks_operations.py` and its callers).

The Python code is shallowly embedded: dynamic Python values become the
inductive `PyValue`; raised exceptions become `Except`; the side effects of
the session build (AWS calls, temp-file creation, client construction) are
recorded as explicit event traces; log records become lists of strings.
External collaborators (boto3, eks-token, the kubernetes client, the OS)
are stubbed by an environment record whose fields give each call's outcome.
-/

namespace EKSApp

/-- Model of a dynamically typed Python value, as far as the service needs:
the eks-token minting response is an arbitrary such value. -/
inductive PyValue where
  | pynone
  | pybool (b : Bool)
  | pyint (n : Int)
  | pystr (s : String)
  | pylist (xs : List PyValue)
  | pydict (entries : List (String × PyValue))

/-- Python truthiness (`bool(v)`): None, False, 0, empty string/list/dict are falsy. -/
def truthy : PyValue → Bool
  | .pynone => false
  | .pybool b => b
  | .pyint n => decide (n ≠ 0)
  | .pystr s => decide (s ≠ "")
  | .pylist xs => !xs.isEmpty
  | .pydict es => !es.isEmpty

/-- Python `type(v).__name__`. -/
def typeName : PyValue → String
  | .pynone => "NoneType"
  | .pybool _ => "bool"
  | .pyint _ => "int"
  | .pystr _ => "str"
  | .pylist _ => "list"
  | .pydict _ => "dict"

/-- Lookup in a Python dict (first binding wins; keys are unique in practice). -/
def lookupEntry (es : List (String × PyValue)) (k : String) : Option PyValue :=
  (es.find? (fun e => e.1 = k)).map (fun e => e.2)

/-- A single-quote character, used by Python repr of strings. -/
def pyQuote : String := String.singleton (Char.ofNat 39)

mutual

/-- Python `repr(v)` (also `str(v)` for dicts), as interpolated by f-strings.
String values are wrapped in single quotes. -/
def pyRepr : PyValue → String
  | .pynone => "None"
  | .pybool b => if b then "True" else "False"
  | .pyint n => toString n
  | .pystr s => pyQuote ++ s ++ pyQuote
  | .pylist xs => "[" ++ pyReprItems xs ++ "]"
  | .pydict es => "\x7b" ++ pyReprPairs es ++ "\x7d"

/-- Comma-separated reprs of list items. -/
def pyReprItems : List PyValue → String
  | [] => ""
  | [x] => pyRepr x
  | x :: y :: rest => pyRepr x ++ ", " ++ pyReprItems (y :: rest)

/-- Comma-separated reprs of dict entries. -/
def pyReprPairs : List (String × PyValue) → String
  | [] => ""
  | [(k, v)] => pyQuote ++ k ++ pyQuote ++ ": " ++ pyRepr v
  | (k, v) :: e :: rest =>
      pyQuote ++ k ++ pyQuote ++ ": " ++ pyRepr v ++ ", " ++ pyReprPairs (e :: rest)

end

/-- Python repr of the list of a dict's keys (`list(d.keys())`). -/
def keysRepr (es : List (String × PyValue)) : String :=
  "[" ++ String.intercalate ", " (es.map (fun e => pyQuote ++ e.1 ++ pyQuote)) ++ "]"

/-- The distinct `ValueError`s raised by `EKSOperationsService._generate_token`,
plus the pass-through case of `get_token` itself raising. -/
inductive TokenError where
  | notDict (tn : String)
  | noToken
  | invalidFormat (tn : String)
  | notNonEmptyString (tn : String)
  | mintRaised (msg : String)
deriving DecidableEq

/-- Whether a `_generate_token` failure is one of its own `ValueError`s
(the `TokenMintFailed` family) rather than a re-raised minting exception. -/
def isValueError : TokenError → Bool
  | .mintRaised _ => false
  | _ => true

/-- `str(e)` of each `ValueError` raised by `_generate_token`. -/
def tokenErrMsg : TokenError → String
  | .notDict tn =>
      "Expected dict from get_token(), got " ++ tn ++ ". Verify eks-token version: pip show eks-token"
  | .noToken => "No token in ExecCredential.status.token"
  | .invalidFormat tn =>
      "Invalid ExecCredential response format: " ++ pyQuote ++ tn ++ pyQuote
        ++ " object has no attribute " ++ pyQuote ++ "get" ++ pyQuote
  | .notNonEmptyString tn =>
      "Token is not a non-empty string. Type: " ++ tn ++ ", Length: N/A"
  | .mintRaised msg => msg

/-- Decidable-Bool prefix test on character lists (Python `str.startswith`). -/
def isPrefixChars : List Char → List Char → Bool
  | [], _ => true
  | _ :: _, [] => false
  | a :: as, b :: bs => a = b && isPrefixChars as bs

/-- The characters of the EKS token signature scheme checked by the source. -/
def k8sSigChars : List Char := String.toList "k8s-aws4"

/-- Log records of the outer `except ValueError` handler of `_generate_token`. -/
def valueErrorLogs (cluster region : String) (e : TokenError) : List String :=
  ["Token extraction failed: " ++ tokenErrMsg e,
   "Context: cluster=" ++ cluster ++ ", region=" ++ region,
   "Fix: (1) Verify eks-token installed, (2) Check AWS credentials, (3) Check IAM permissions"]

/-- Log records of the success tail of `_generate_token`. -/
def tokenSuccessLogs (t : String) : List String :=
  ["Token extracted from ExecCredential.status.token",
   "IAM bearer token generated successfully (length=" ++ toString t.toList.length
     ++ " chars, expires ~15 min)",
   "Token prefix (first 20 chars): " ++ String.mk (t.toList.take 20) ++ "...",
   "Token format check: starts with k8s-aws4 = "
     ++ (if isPrefixChars k8sSigChars t.toList then "True" else "False")]

/-- `EKSOperationsService._generate_token`, embedded.  `mintResult` is the
outcome of the `eks_token.get_token` call (`.error` models it raising).
Returns the extracted bearer token or the raised error, together with every
log record the method emits, in order. -/
def generateToken (cluster region : String) (mintResult : Except String PyValue) :
    Except TokenError String × List String :=
  let pre := ["Token generation: cluster_name=" ++ cluster,
              "Generating IAM bearer token via eks-token package"]
  match mintResult with
  | .error msg =>
      (.error (.mintRaised msg),
       pre ++ ["Token generation failed: " ++ msg,
               "Context: cluster=" ++ cluster ++ ", region=" ++ region])
  | .ok resp =>
    let pre2 := pre ++ ["eks-token response type: " ++ typeName resp]
    match resp with
    | .pydict entries =>
      match (lookupEntry entries "status").getD (.pydict []) with
      | .pydict statusEntries =>
        let tokenVal := (lookupEntry statusEntries "token").getD .pynone
        if truthy tokenVal then
          match tokenVal with
          | .pystr t =>
              (.ok t, pre2 ++ tokenSuccessLogs t)
          | other =>
              let e := TokenError.notNonEmptyString (typeName other)
              (.error e, pre2 ++ valueErrorLogs cluster region e)
        else
          let e := TokenError.noToken
          (.error e,
           pre2 ++ ["ExecCredential response: " ++ pyRepr resp]
                ++ valueErrorLogs cluster region e)
      | nonDict =>
          let e := TokenError.invalidFormat (typeName nonDict)
          (.error e,
           pre2 ++ ["Failed to extract token. Response type: dict, Keys: " ++ keysRepr entries]
                ++ valueErrorLogs cluster region e)
    | nonDictResp =>
        let e := TokenError.notDict (typeName nonDictResp)
        (.error e, pre2 ++ valueErrorLogs cluster region e)

/-- The bearer-token string a minting response carries at `status.token`,
when present, non-empty, and a string (the shape `_generate_token` accepts). -/
def statusTokenString (resp : PyValue) : Option String :=
  match resp with
  | .pydict es =>
    match (lookupEntry es "status").getD (.pydict []) with
    | .pydict ses =>
      match (lookupEntry ses "token").getD .pynone with
      | .pystr t => if t = "" then none else some t
      | _ => none
    | _ => none
  | _ => none

/-- The base64 alphabet in value order, as used by `base64.b64decode` /
`b64encode`. -/
def b64alphabet : List Char :=
  String.toList "ABCDEFGHIJKLMNOPQRSTUVWXYZabcdefghijklmnopqrstuvwxyz0123456789+/"

/-- The 6-bit value of a base64 alphabet character, `none` for any other
character. -/
def decChar (c : Char) : Option Nat :=
  b64alphabet.findIdx? (fun a => a = c)

/-- The alphabet character of a 6-bit value. -/
def encChar (n : Nat) : Char := b64alphabet.getD n (Char.ofNat 63)

/-- The decode loop of CPython `binascii.a2b_base64` in non-strict mode (the
mode `base64.b64decode` uses when called, as the source does, without
`validate`): characters outside the alphabet are skipped; a pad character
ends the data once the current quad holds at least two data characters and
enough pads; at the end a quad position of 1, 2, or 3 is a `binascii.Error`
(`none`). State: remaining input, quad position, pending bits, consecutive
pad count, output bytes. -/
def a2bAux : List Char → Nat → Nat → Nat → List Nat → Option (List Nat)
  | [], q, _, _, acc => if q = 0 then some acc else none
  | c :: cs, q, left, pads, acc =>
    if c = Char.ofNat 61 then
      if 2 ≤ q then
        if 4 ≤ q + (pads + 1) then some acc
        else a2bAux cs q left (pads + 1) acc
      else a2bAux cs q left pads acc
    else
      match decChar c with
      | none => a2bAux cs q left pads acc
      | some v =>
        match q with
        | 0 => a2bAux cs 1 v 0 acc
        | 1 => a2bAux cs 2 (v % 16) 0 (acc ++ [left * 4 + v / 16])
        | 2 => a2bAux cs 3 (v % 4) 0 (acc ++ [left * 16 + v / 4])
        | _ => a2bAux cs 0 0 0 (acc ++ [left * 64 + v])

/-- Whether `str.encode("ascii")` accepts a character (codepoint ≤ 127). -/
def isAsciiChar (c : Char) : Bool := c.toNat ≤ 127

/-- Python `base64.b64decode` (default non-validating mode) on a `str`
argument: the string is first encoded as ASCII (`_bytes_from_decode_data`
does `s.encode("ascii")`, raising `ValueError` — `none` — on any non-ASCII
character), then decoded by the non-strict `binascii.a2b_base64` loop,
producing the decoded bytes or `none` for `binascii.Error`. -/
def pyB64decode (s : List Char) : Option (List Nat) :=
  if s.all isAsciiChar then a2bAux s 0 0 0 [] else none

/-- Standard base64 encoding with padding (`base64.b64encode`) of a byte
sequence. -/
def b64encode : List Nat → List Char
  | [] => []
  | [b1] => [encChar (b1 / 4), encChar (b1 % 4 * 16), Char.ofNat 61, Char.ofNat 61]
  | [b1, b2] => [encChar (b1 / 4), encChar (b1 % 4 * 16 + b2 / 16),
                 encChar (b2 % 16 * 4), Char.ofNat 61]
  | b1 :: b2 :: b3 :: rest =>
      encChar (b1 / 4) :: encChar (b1 % 4 * 16 + b2 / 16)
        :: encChar (b2 % 16 * 4 + b3 / 64) :: encChar (b3 % 64) :: b64encode rest

/-- A UTF-8 continuation byte. -/
def contByte (b : Nat) : Bool := 128 ≤ b && b ≤ 191

/-- Validity of a byte sequence as UTF-8 (the strict decoding `bytes.decode`
performs), following RFC 3629: no overlong forms, no surrogates, maximum
U+10FFFF. -/
def utf8Valid : List Nat → Bool
  | [] => true
  | b :: rest =>
    if b ≤ 127 then utf8Valid rest
    else if 194 ≤ b && b ≤ 223 then
      match rest with
      | c1 :: r => contByte c1 && utf8Valid r
      | [] => false
    else if b = 224 then
      match rest with
      | c1 :: c2 :: r => (160 ≤ c1 && c1 ≤ 191) && contByte c2 && utf8Valid r
      | _ => false
    else if 225 ≤ b && b ≤ 236 then
      match rest with
      | c1 :: c2 :: r => contByte c1 && contByte c2 && utf8Valid r
      | _ => false
    else if b = 237 then
      match rest with
      | c1 :: c2 :: r => (128 ≤ c1 && c1 ≤ 159) && contByte c2 && utf8Valid r
      | _ => false
    else if 238 ≤ b && b ≤ 239 then
      match rest with
      | c1 :: c2 :: r => contByte c1 && contByte c2 && utf8Valid r
      | _ => false
    else if b = 240 then
      match rest with
      | c1 :: c2 :: c3 :: r =>
          (144 ≤ c1 && c1 ≤ 191) && contByte c2 && contByte c3 && utf8Valid r
      | _ => false
    else if 241 ≤ b && b ≤ 243 then
      match rest with
      | c1 :: c2 :: c3 :: r => contByte c1 && contByte c2 && contByte c3 && utf8Valid r
      | _ => false
    else if b = 244 then
      match rest with
      | c1 :: c2 :: c3 :: r =>
          (128 ≤ c1 && c1 ≤ 143) && contByte c2 && contByte c3 && utf8Valid r
      | _ => false
    else false

/-- The CA decode step of `_configure_clients`
(`base64.b64decode(ca_data).decode("utf-8")`): the decoded bytes when both
base64 decoding and UTF-8 decoding succeed, `none` when either raises. -/
def decodeCACert (caData : List Char) : Option (List Nat) :=
  match pyB64decode caData with
  | none => none
  | some bytes => if utf8Valid bytes then some bytes else none

/-- Characters that take part in base64 decoding: alphabet characters and
the pad; every other input character is discarded by the decoder. -/
def b64Relevant (c : Char) : Bool := (decChar c).isSome || c = Char.ofNat 61

theorem decChar_encChar : ∀ v, v < 64 → decChar (encChar v) = some v := by decide

theorem encChar_ne_pad : ∀ v, v < 64 → ¬(encChar v = Char.ofNat 61) := by decide

theorem a2bAux_step0 (c : Char) (cs : List Char) (v left pads : Nat) (acc : List Nat)
    (hne : ¬(c = Char.ofNat 61)) (hdec : decChar c = some v) :
    a2bAux (c :: cs) 0 left pads acc = a2bAux cs 1 v 0 acc := by
  simp [a2bAux, hne, hdec]

theorem a2bAux_step1 (c : Char) (cs : List Char) (v left pads : Nat) (acc : List Nat)
    (hne : ¬(c = Char.ofNat 61)) (hdec : decChar c = some v) :
    a2bAux (c :: cs) 1 left pads acc
      = a2bAux cs 2 (v % 16) 0 (acc ++ [left * 4 + v / 16]) := by
  simp [a2bAux, hne, hdec]

theorem a2bAux_step2 (c : Char) (cs : List Char) (v left pads : Nat) (acc : List Nat)
    (hne : ¬(c = Char.ofNat 61)) (hdec : decChar c = some v) :
    a2bAux (c :: cs) 2 left pads acc
      = a2bAux cs 3 (v % 4) 0 (acc ++ [left * 16 + v / 4]) := by
  simp [a2bAux, hne, hdec]

theorem a2bAux_step3 (c : Char) (cs : List Char) (v left pads : Nat) (acc : List Nat)
    (hne : ¬(c = Char.ofNat 61)) (hdec : decChar c = some v) :
    a2bAux (c :: cs) 3 left pads acc = a2bAux cs 0 0 0 (acc ++ [left * 64 + v]) := by
  simp [a2bAux, hne, hdec]

theorem a2bAux_pad2_first (cs : List Char) (left : Nat) (acc : List Nat) :
    a2bAux (Char.ofNat 61 :: cs) 2 left 0 acc = a2bAux cs 2 left 1 acc := by
  simp [a2bAux]

theorem a2bAux_pad2_done (cs : List Char) (left pads : Nat) (acc : List Nat)
    (h : 1 ≤ pads) :
    a2bAux (Char.ofNat 61 :: cs) 2 left pads acc = some acc := by
  have h4 : 4 ≤ 2 + (pads + 1) := by omega
  simp [a2bAux, h4]

theorem a2bAux_pad3_done (cs : List Char) (left pads : Nat) (acc : List Nat) :
    a2bAux (Char.ofNat 61 :: cs) 3 left pads acc = some acc := by
  have h4 : 4 ≤ 3 + (pads + 1) := by omega
  simp [a2bAux, h4]

/-- The decode loop inverts the encoder, for any accumulator. -/
theorem a2bAux_encode : ∀ (xs acc : List Nat), (∀ b ∈ xs, b < 256) →
    a2bAux (b64encode xs) 0 0 0 acc = some (acc ++ xs)
  | [], acc, _ => by simp [b64encode, a2bAux]
  | [b1], acc, h => by
      have hb1 : b1 < 256 := h b1 (by simp)
      have h1 : b1 / 4 < 64 := by omega
      have h2 : b1 % 4 * 16 < 64 := by omega
      have e1 : b1 / 4 * 4 + b1 % 4 * 16 / 16 = b1 := by omega
      have e2 : b1 % 4 * 16 % 16 = 0 := by omega
      rw [show b64encode [b1]
            = encChar (b1 / 4) :: encChar (b1 % 4 * 16)
              :: Char.ofNat 61 :: Char.ofNat 61 :: [] from rfl,
        a2bAux_step0 _ _ _ _ _ _ (encChar_ne_pad _ h1) (decChar_encChar _ h1),
        a2bAux_step1 _ _ _ _ _ _ (encChar_ne_pad _ h2) (decChar_encChar _ h2),
        e1, e2, a2bAux_pad2_first, a2bAux_pad2_done _ _ _ _ (by omega)]
  | [b1, b2], acc, h => by
      have hb1 : b1 < 256 := h b1 (by simp)
      have hb2 : b2 < 256 := h b2 (by simp)
      have h1 : b1 / 4 < 64 := by omega
      have h2 : b1 % 4 * 16 + b2 / 16 < 64 := by omega
      have h3 : b2 % 16 * 4 < 64 := by omega
      have e1 : b1 / 4 * 4 + (b1 % 4 * 16 + b2 / 16) / 16 = b1 := by omega
      have e2 : (b1 % 4 * 16 + b2 / 16) % 16 = b2 / 16 := by omega
      have e3 : b2 / 16 * 16 + b2 % 16 * 4 / 4 = b2 := by omega
      rw [show b64encode [b1, b2]
            = encChar (b1 / 4) :: encChar (b1 % 4 * 16 + b2 / 16)
              :: encChar (b2 % 16 * 4) :: Char.ofNat 61 :: [] from rfl,
        a2bAux_step0 _ _ _ _ _ _ (encChar_ne_pad _ h1) (decChar_encChar _ h1),
        a2bAux_step1 _ _ _ _ _ _ (encChar_ne_pad _ h2) (decChar_encChar _ h2),
        e1, e2,
        a2bAux_step2 _ _ _ _ _ _ (encChar_ne_pad _ h3) (decChar_encChar _ h3),
        e3, a2bAux_pad3_done]
      simp
  | b1 :: b2 :: b3 :: rest, acc, h => by
      have hb1 : b1 < 256 := h b1 (by simp)
      have hb2 : b2 < 256 := h b2 (by simp)
      have hb3 : b3 < 256 := h b3 (by simp)
      have h1 : b1 / 4 < 64 := by omega
      have h2 : b1 % 4 * 16 + b2 / 16 < 64 := by omega
      have h3 : b2 % 16 * 4 + b3 / 64 < 64 := by omega
      have h4 : b3 % 64 < 64 := by omega
      have e1 : b1 / 4 * 4 + (b1 % 4 * 16 + b2 / 16) / 16 = b1 := by omega
      have e2 : (b1 % 4 * 16 + b2 / 16) % 16 = b2 / 16 := by omega
      have e3 : b2 / 16 * 16 + (b2 % 16 * 4 + b3 / 64) / 4 = b2 := by omega
      have e4 : (b2 % 16 * 4 + b3 / 64) % 4 = b3 / 64 := by omega
      have e5 : b3 / 64 * 64 + b3 % 64 = b3 := by omega
      have ih := a2bAux_encode rest (acc ++ [b1, b2, b3])
        (fun b hb => h b (by simp [hb]))
      rw [show b64encode (b1 :: b2 :: b3 :: rest)
            = encChar (b1 / 4) :: encChar (b1 % 4 * 16 + b2 / 16)
              :: encChar (b2 % 16 * 4 + b3 / 64) :: encChar (b3 % 64)
              :: b64encode rest from rfl,
        a2bAux_step0 _ _ _ _ _ _ (encChar_ne_pad _ h1) (decChar_encChar _ h1),
        a2bAux_step1 _ _ _ _ _ _ (encChar_ne_pad _ h2) (decChar_encChar _ h2),
        e1, e2,
        a2bAux_step2 _ _ _ _ _ _ (encChar_ne_pad _ h3) (decChar_encChar _ h3),
        e3, e4,
        a2bAux_step3 _ _ _ _ _ _ (encChar_ne_pad _ h4) (decChar_encChar _ h4),
        e5, show acc ++ [b1] ++ [b2] ++ [b3] = acc ++ [b1, b2, b3] by simp, ih]
      simp

/-- Discarded characters do not influence the decode loop. -/
theorem a2bAux_filter (s : List Char) : ∀ (q left pads : Nat) (acc : List Nat),
    a2bAux s q left pads acc = a2bAux (s.filter b64Relevant) q left pads acc := by
  induction s with
  | nil => intro q left pads acc; rfl
  | cons c cs ih =>
    intro q left pads acc
    by_cases hpad : c = Char.ofNat 61
    · subst hpad
      have : b64Relevant (Char.ofNat 61) = true := by decide
      rw [List.filter_cons_of_pos this]
      show (if (2:Nat) ≤ q then _ else _) = (if (2:Nat) ≤ q then _ else _)
      by_cases h2 : 2 ≤ q
      · rw [if_pos h2, if_pos h2]
        by_cases h4 : 4 ≤ q + (pads + 1)
        · rw [if_pos h4, if_pos h4]
        · rw [if_neg h4, if_neg h4]; exact ih _ _ _ _
      · rw [if_neg h2, if_neg h2]; exact ih _ _ _ _
    · cases hdec : decChar c with
      | none =>
        have hrel : b64Relevant c = false := by
          simp [b64Relevant, hdec, hpad]
        rw [List.filter_cons_of_neg (by simp [hrel])]
        show a2bAux (c :: cs) q left pads acc = _
        simp only [a2bAux, if_neg hpad, hdec]
        exact ih _ _ _ _
      | some v =>
        have hrel : b64Relevant c = true := by simp [b64Relevant, hdec]
        rw [List.filter_cons_of_pos hrel]
        show a2bAux (c :: cs) q left pads acc = _
        simp only [a2bAux, if_neg hpad, hdec]
        match q with
        | 0 => exact ih _ _ _ _
        | 1 => exact ih _ _ _ _
        | 2 => exact ih _ _ _ _
        | n + 3 => exact ih _ _ _ _

/-- Observable side effects of one `_configure_clients` run: the external
calls it makes, the temp-file operations it performs, and the client
assembly steps it completes.  `loadedKubeconfig` is in the vocabulary so
that its absence from every trace is expressible; the source never emits
it (`kubernetes.config` is imported but no `load_kube_config` /
`load_incluster_config` call exists). -/
inductive BuildEvent where
  | createdEksClient
  | calledDescribeCluster (cluster : String)
  | calledGetToken (cluster : String)
  | createdTempFile (name : String)
  | deletedTempFile (name : String)
  | loadedKubeconfig
  | assembledConfig
  | createdApiClients
deriving DecidableEq

/-- `kubernetes.client.Configuration` as `_configure_clients` populates it.
`api_key_pfx` embeds the source field `api_key_prefix`. -/
structure K8sConfiguration where
  host : String
  ssl_ca_cert : String
  api_key : List (String × String)
  api_key_pfx : List (String × String)
deriving DecidableEq

/-- `kubernetes.client.ApiClient`: holds the transport configuration. -/
structure ApiClient where
  configuration : K8sConfiguration
deriving DecidableEq

/-- `kubernetes.client.BatchV1Api`, bound to an `ApiClient`. -/
structure BatchV1Api where
  api_client : ApiClient
deriving DecidableEq

/-- `kubernetes.client.CoreV1Api`, bound to an `ApiClient`. -/
structure CoreV1Api where
  api_client : ApiClient
deriving DecidableEq

/-- The state of an `EKSOperationsService` instance after a successful
`_configure_clients` run. -/
structure Session where
  cluster_endpoint : String
  ca_cert_data : List Char
  token : String
  k8s_batch_api : BatchV1Api
  k8s_core_api : CoreV1Api
deriving DecidableEq

/-- Stubbed outcomes of the external collaborators of one build attempt:
the EKS `describe_cluster` call, the `get_token` call, the OS temp-file
creation, and the kubernetes-client constructor calls (each wrapped in
`try` by the source). -/
structure BuildEnv where
  clusterName : String
  region : String
  describeCluster : Except String (String × List Char)
  getTokenResult : Except String PyValue
  tempFile : Except String String
  configOutcome : Except String Unit
  clientsOutcome : Except String Unit

/-- The distinct failures of `_configure_clients`, one per step, as the
source raises them (each step's exception is wrapped in its own
`ValueError` or re-raised unchanged). -/
inductive BuildError where
  | fetchFailed (msg : String)
  | tokenFailed (e : TokenError)
  | invalidCA
  | tempFileFailed (msg : String)
  | configFailed (msg : String)
  | clientsFailed (msg : String)
deriving DecidableEq

/-- `EKSOperationsService._configure_clients` (the whole of `__init__`'s
work), embedded: runs the steps in source order, aborts at the first
failure, and returns the fully assembled service state only when every
step succeeded, together with the build's event trace. -/
def configureClients (env : BuildEnv) : Except BuildError Session × List BuildEvent :=
  let ev0 := [BuildEvent.createdEksClient, BuildEvent.calledDescribeCluster env.clusterName]
  match env.describeCluster with
  | .error msg => (.error (.fetchFailed msg), ev0)
  | .ok (endpoint, caData) =>
    let ev1 := ev0 ++ [BuildEvent.calledGetToken env.clusterName]
    match (generateToken env.clusterName env.region env.getTokenResult).1 with
    | .error te => (.error (.tokenFailed te), ev1)
    | .ok token =>
      match decodeCACert caData with
      | none => (.error .invalidCA, ev1)
      | some _caBytes =>
        match env.tempFile with
        | .error msg => (.error (.tempFileFailed msg), ev1)
        | .ok fname =>
          let ev2 := ev1 ++ [BuildEvent.createdTempFile fname]
          match env.configOutcome with
          | .error msg => (.error (.configFailed msg), ev2)
          | .ok _ =>
            let cfg : K8sConfiguration :=
              { host := endpoint
                ssl_ca_cert := fname
                api_key := [("authorization", "Bearer " ++ token)]
                api_key_pfx := [("authorization", "")] }
            let ev3 := ev2 ++ [BuildEvent.assembledConfig]
            match env.clientsOutcome with
            | .error msg => (.error (.clientsFailed msg), ev3)
            | .ok _ =>
              let apiClient : ApiClient := ⟨cfg⟩
              (.ok { cluster_endpoint := endpoint
                     ca_cert_data := caData
                     token := token
                     k8s_batch_api := ⟨apiClient⟩
                     k8s_core_api := ⟨apiClient⟩ },
               ev3 ++ [BuildEvent.createdApiClients])

/-- `get_eks_service`: returns the cached global instance when set;
otherwise runs the constructor and publishes the instance only when the
whole build succeeded (in Python, a raising constructor leaves the
assignment `_service_instance = EKSOperationsService()` unexecuted).
Returns the call's result, the global state after the call, and the
build events performed during the call. -/
def getEksService (st : Option Session) (env : BuildEnv) :
    Except BuildError Session × Option Session × List BuildEvent :=
  match st with
  | some s => (.ok s, some s, [])
  | none =>
    match configureClients env with
    | (.ok s, evs) => (.ok s, some s, evs)
    | (.error e, evs) => (.error e, none, evs)

/-- Whether an `Except` is a success. -/
def exceptIsOk {ε α : Type} : Except ε α → Bool
  | .ok _ => true
  | .error _ => false

/-- Whether a trace deletes some temp file. -/
def tempDeleted (evs : List BuildEvent) : Bool :=
  evs.any (fun e => match e with | .deletedTempFile _ => true | _ => false)

/-- Number of `describe_cluster` control-plane fetches in a trace. -/
def countFetches (evs : List BuildEvent) : Nat :=
  (evs.filter (fun e => match e with | .calledDescribeCluster _ => true | _ => false)).length

/-- Number of token mints in a trace. -/
def countMints (evs : List BuildEvent) : Nat :=
  (evs.filter (fun e => match e with | .calledGetToken _ => true | _ => false)).length

/-- Number of build attempts in a trace (each build attempt begins by
creating the boto3 EKS client). -/
def countBuilds (evs : List BuildEvent) : Nat :=
  (evs.filter (fun e => match e with | .createdEksClient => true | _ => false)).length

theorem encChar_ascii : ∀ v, v < 64 → isAsciiChar (encChar v) = true := by decide

theorem pad_ascii : isAsciiChar (Char.ofNat 61) = true := by decide

/-- Encoder output is pure ASCII. -/
theorem b64encode_ascii : ∀ xs : List Nat, (∀ b ∈ xs, b < 256) →
    (b64encode xs).all isAsciiChar = true
  | [], _ => rfl
  | [b1], h => by
      have hb1 : b1 < 256 := h b1 (by simp)
      have e1 := encChar_ascii (b1 / 4) (by omega)
      have e2 := encChar_ascii (b1 % 4 * 16) (by omega)
      simp [b64encode, e1, e2, pad_ascii]
  | [b1, b2], h => by
      have hb1 : b1 < 256 := h b1 (by simp)
      have hb2 : b2 < 256 := h b2 (by simp)
      have e1 := encChar_ascii (b1 / 4) (by omega)
      have e2 := encChar_ascii (b1 % 4 * 16 + b2 / 16) (by omega)
      have e3 := encChar_ascii (b2 % 16 * 4) (by omega)
      simp [b64encode, e1, e2, e3, pad_ascii]
  | b1 :: b2 :: b3 :: rest, h => by
      have hb1 : b1 < 256 := h b1 (by simp)
      have hb2 : b2 < 256 := h b2 (by simp)
      have hb3 : b3 < 256 := h b3 (by simp)
      have e1 := encChar_ascii (b1 / 4) (by omega)
      have e2 := encChar_ascii (b1 % 4 * 16 + b2 / 16) (by omega)
      have e3 := encChar_ascii (b2 % 16 * 4 + b3 / 64) (by omega)
      have e4 := encChar_ascii (b3 % 64) (by omega)
      have ih := b64encode_ascii rest (fun b hb => h b (by simp [hb]))
      simp [b64encode, e1, e2, e3, e4, ih]

/-- Filtering keeps a list's elements, so it preserves `all`. -/
theorem all_filter_of_all (p q : Char → Bool) (s : List Char) (h : s.all q = true) :
    (s.filter p).all q = true := by
  induction s with
  | nil => rfl
  | cons c cs ih =>
    simp only [List.all_cons, Bool.and_eq_true] at h
    by_cases hp : p c = true
    · rw [List.filter_cons_of_pos hp]
      simp [List.all_cons, h.1, ih h.2]
    · rw [List.filter_cons_of_neg (by simp [hp])]
      exact ih h.2

/-- C4 (amended): the decode step first requires the CA value to be ASCII —
a non-ASCII value fails (the `str.encode("ascii")` inside `b64decode`
raises `ValueError`, the build's `InvalidTrustMaterial` path); within an
ASCII value, characters outside the base64 alphabet are discarded rather
than failing; and on every valid base64 encoding the decoder returns
exactly the encoded bytes (`decode(encode(x)) == x`). -/
theorem C4_trust_material_decode :
    (∀ xs : List Nat, (∀ b ∈ xs, b < 256) → pyB64decode (b64encode xs) = some xs)
  ∧ (∀ s : List Char, s.all isAsciiChar = true →
      pyB64decode s = pyB64decode (s.filter b64Relevant))
  ∧ (∀ s : List Char, s.all isAsciiChar = false → pyB64decode s = none) := by
  refine ⟨?_, ?_, ?_⟩
  · intro xs h
    have hascii := b64encode_ascii xs h
    simp only [pyB64decode, hascii, if_true]
    simpa using a2bAux_encode xs [] h
  · intro s hs
    have hf := all_filter_of_all b64Relevant isAsciiChar s hs
    simp only [pyB64decode, hs, hf, if_true]
    exact a2bAux_filter s 0 0 0 []
  · intro s hs
    simp [pyB64decode, hs]

/-- Witness for C4 (amended) at the bytes of "CERT". -/
theorem C4_trust_material_decode_witness :
    pyB64decode (b64encode [67, 69, 82, 84]) = some [67, 69, 82, 84] :=
  C4_trust_material_decode.1 [67, 69, 82, 84] (by decide)

/-- Association lookup in a string-keyed map (Python dict of strings). -/
def lookupStr (m : List (String × String)) (k : String) : Option String :=
  (m.find? (fun e => e.1 = k)).map (fun e => e.2)

/-- Modelled from the spec: the kubernetes transport layer, absent from this
repository, sends each request with the configured api key for
`authorization`, joined to its configured api-key prefix when that prefix
is non-empty (`Configuration.get_api_key_with_prefix`). -/
def apiKeyHeaderValue (cfg : K8sConfiguration) (identifier : String) : Option String :=
  match lookupStr cfg.api_key identifier with
  | none => none
  | some key =>
    match lookupStr cfg.api_key_pfx identifier with
    | some p => if p = "" then some key else some (p ++ " " ++ key)
    | none => some key

/-- A well-formed ExecCredential minting response, for concrete runs. -/
def respGood : PyValue :=
  .pydict [("status", .pydict [("token", .pystr "k8s-aws4-AAA")])]

/-- A stub environment in which every external call succeeds. -/
def envGood : BuildEnv :=
  { clusterName := "prod"
    region := "us-east-1"
    describeCluster := .ok ("https://abc.example", String.toList "Q0VSVA==")
    getTokenResult := .ok respGood
    tempFile := .ok "/tmp/eks_ca_1.crt"
    configOutcome := .ok ()
    clientsOutcome := .ok () }

/-- `envGood` with the control-plane fetch failing. -/
def envFetchFail : BuildEnv :=
  { envGood with describeCluster := .error "ResourceNotFoundException" }

/-- `envGood` with the kubernetes `Configuration()` assembly step failing,
after the temp CA file has been created. -/
def envConfigFail : BuildEnv :=
  { envGood with configOutcome := .error "Configuration() raised" }

/-- `envGood` with a CA value that is not valid base64: every character is
outside the base64 alphabet. -/
def envBadCA : BuildEnv :=
  { envGood with describeCluster := .ok ("https://abc.example", String.toList "!!!!") }

/-- Every build attempt's trace begins with the fresh boto3 client and the
control-plane fetch: a build never resumes from a later step. -/
theorem configureClients_starts_at_step1 (env : BuildEnv) :
    (configureClients env).2.take 2
      = [BuildEvent.createdEksClient, BuildEvent.calledDescribeCluster env.clusterName] := by
  rcases hdc : env.describeCluster with msg | ⟨endpoint, caData⟩
  · simp [configureClients, hdc]
  · rcases hgt : (generateToken env.clusterName env.region env.getTokenResult).1 with te | token
    · simp [configureClients, hdc, hgt]
    · rcases hca : decodeCACert caData with _ | bytes
      · simp [configureClients, hdc, hgt, hca]
      · rcases htf : env.tempFile with m | f
        · simp [configureClients, hdc, hgt, hca, htf]
        · rcases hco : env.configOutcome with m | u
          · simp [configureClients, hdc, hgt, hca, htf, hco]
          · rcases hcl : env.clientsOutcome with m | u
            · simp [configureClients, hdc, hgt, hca, htf, hco, hcl]
            · simp [configureClients, hdc, hgt, hca, htf, hco, hcl]

/-- C3: a build attempt failing at any step publishes nothing: the global
instance stays unset, the error propagates, a later call behaves exactly
like a first call, and every (re)build runs the full pipeline from step 1
(fresh client, then the control-plane fetch) — never resuming mid-way and
never yielding a partially built session. -/
theorem C3_no_partial_session (env : BuildEnv) (e : BuildError)
    (h : (configureClients env).1 = Except.error e) :
    (getEksService none env).1 = Except.error e
  ∧ (getEksService none env).2.1 = none
  ∧ (∀ env2, getEksService ((getEksService none env).2.1) env2 = getEksService none env2)
  ∧ (∀ env2, (getEksService none env2).2.2 = (configureClients env2).2
      ∧ (configureClients env2).2.take 2
          = [BuildEvent.createdEksClient, BuildEvent.calledDescribeCluster env2.clusterName]) := by
  have hmain : (getEksService none env).1 = Except.error e
      ∧ (getEksService none env).2.1 = none := by
    rcases hc : configureClients env with ⟨res, evs⟩
    rw [hc] at h
    simp only at h
    subst h
    simp [getEksService, hc]
  refine ⟨hmain.1, hmain.2, ?_, ?_⟩
  · intro env2
    rw [hmain.2]
  · intro env2
    refine ⟨?_, configureClients_starts_at_step1 env2⟩
    rcases hc2 : configureClients env2 with ⟨res2, evs2⟩
    cases res2 <;> simp [getEksService, hc2]

/-- Witness for C3 at a concrete failing fetch. -/
theorem C3_no_partial_session_witness :
    (getEksService none envFetchFail).1
        = Except.error (BuildError.fetchFailed "ResourceNotFoundException")
  ∧ (getEksService none envFetchFail).2.1 = none :=
  ⟨(C3_no_partial_session envFetchFail
      (BuildError.fetchFailed "ResourceNotFoundException") rfl).1,
   (C3_no_partial_session envFetchFail
      (BuildError.fetchFailed "ResourceNotFoundException") rfl).2.1⟩

/-- C5 (amended): the materialized temp CA file is never cleaned up by the
service on any exit path: no build trace — successful or failed — ever
contains a temp-file deletion (the file is created with `delete=False` and
no removal call exists). -/
theorem C5_temp_file_never_cleaned (env : BuildEnv) :
    tempDeleted (configureClients env).2 = false := by
  rcases hdc : env.describeCluster with msg | ⟨endpoint, caData⟩
  · simp [configureClients, hdc, tempDeleted]
  · rcases hgt : (generateToken env.clusterName env.region env.getTokenResult).1 with te | token
    · simp [configureClients, hdc, hgt, tempDeleted]
    · rcases hca : decodeCACert caData with _ | bytes
      · simp [configureClients, hdc, hgt, hca, tempDeleted]
      · rcases htf : env.tempFile with m | f
        · simp [configureClients, hdc, hgt, hca, htf, tempDeleted]
        · rcases hco : env.configOutcome with m | u
          · simp [configureClients, hdc, hgt, hca, htf, hco, tempDeleted]
          · rcases hcl : env.clientsOutcome with m | u
            · simp [configureClients, hdc, hgt, hca, htf, hco, hcl, tempDeleted]
            · simp [configureClients, hdc, hgt, hca, htf, hco, hcl, tempDeleted]

/-- Counterexample to C5 as stated: a build that fails after materializing
the temp CA file leaves the file behind — the trace creates it and no
event deletes it. -/
theorem C5_counterexample :
    exceptIsOk (configureClients envConfigFail).1 = false
  ∧ BuildEvent.createdTempFile "/tmp/eks_ca_1.crt" ∈ (configureClients envConfigFail).2
  ∧ tempDeleted (configureClients envConfigFail).2 = false := by decide

/-- C7: every successfully built session carries the credential
`Bearer <token>` under the `authorization` api key with an empty api-key
prefix (so the transport sends header `Authorization: Bearer <token>`),
binds both sub-clients to one and the same client/configuration, and its
build never touched a kubeconfig-based authentication path. -/
theorem C7_bearer_transport (env : BuildEnv) (s : Session)
    (h : (configureClients env).1 = Except.ok s) :
    lookupStr s.k8s_batch_api.api_client.configuration.api_key "authorization"
        = some ("Bearer " ++ s.token)
  ∧ lookupStr s.k8s_batch_api.api_client.configuration.api_key_pfx "authorization" = some ""
  ∧ s.k8s_batch_api.api_client = s.k8s_core_api.api_client
  ∧ apiKeyHeaderValue s.k8s_batch_api.api_client.configuration "authorization"
        = some ("Bearer " ++ s.token)
  ∧ BuildEvent.loadedKubeconfig ∉ (configureClients env).2 := by
  rcases hdc : env.describeCluster with msg | ⟨endpoint, caData⟩
  · simp [configureClients, hdc] at h
  · rcases hgt : (generateToken env.clusterName env.region env.getTokenResult).1 with te | token
    · simp [configureClients, hdc, hgt] at h
    · rcases hca : decodeCACert caData with _ | bytes
      · simp [configureClients, hdc, hgt, hca] at h
      · rcases htf : env.tempFile with m | f
        · simp [configureClients, hdc, hgt, hca, htf] at h
        · rcases hco : env.configOutcome with m | u
          · simp [configureClients, hdc, hgt, hca, htf, hco] at h
          · rcases hcl : env.clientsOutcome with m | u
            · simp [configureClients, hdc, hgt, hca, htf, hco, hcl] at h
            · simp only [configureClients, hdc, hgt, hca, htf, hco, hcl] at h
              rw [Except.ok.injEq] at h
              subst h
              refine ⟨by simp [lookupStr], by simp [lookupStr], rfl,
                by simp [apiKeyHeaderValue, lookupStr], ?_⟩
              simp [configureClients, hdc, hgt, hca, htf, hco, hcl]

/-- Witness for C7 at a fully successful stub environment. -/
theorem C7_bearer_transport_witness :
    lookupStr ((configureClients envGood).1.toOption.getD
        { cluster_endpoint := "", ca_cert_data := [], token := ""
          k8s_batch_api := ⟨⟨{ host := "", ssl_ca_cert := ""
                               api_key := [], api_key_pfx := [] }⟩⟩
          k8s_core_api := ⟨⟨{ host := "", ssl_ca_cert := ""
                              api_key := [], api_key_pfx := [] }⟩⟩ }
      ).k8s_batch_api.api_client.configuration.api_key "authorization"
      = some ("Bearer " ++ "k8s-aws4-AAA") := by
  have h : (configureClients envGood).1
      = Except.ok ((configureClients envGood).1.toOption.getD
        { cluster_endpoint := "", ca_cert_data := [], token := ""
          k8s_batch_api := ⟨⟨{ host := "", ssl_ca_cert := ""
                               api_key := [], api_key_pfx := [] }⟩⟩
          k8s_core_api := ⟨⟨{ host := "", ssl_ca_cert := ""
                              api_key := [], api_key_pfx := [] }⟩⟩ }) := rfl
  have hc := (C7_bearer_transport envGood _ h).1
  have htok : ((configureClients envGood).1.toOption.getD
        { cluster_endpoint := "", ca_cert_data := [], token := ""
          k8s_batch_api := ⟨⟨{ host := "", ssl_ca_cert := ""
                               api_key := [], api_key_pfx := [] }⟩⟩
          k8s_core_api := ⟨⟨{ host := "", ssl_ca_cert := ""
                              api_key := [], api_key_pfx := [] }⟩⟩ }).token
      = "k8s-aws4-AAA" := by decide
  rw [htok] at hc
  exact hc

/-- Counterexample to C4 as stated: the value "!!!!" is not base64 (no
character of it is in the base64 alphabet), yet the decode step does not
fail — it returns empty trust material — and the whole session build
succeeds instead of failing with `InvalidTrustMaterial`. -/
theorem C4_counterexample :
    decodeCACert (String.toList "!!!!") = some []
  ∧ exceptIsOk (configureClients envBadCA).1 = true := by decide

/-- `kubernetes.client.rest.ApiException`: HTTP status and reason. -/
structure ApiError where
  status : Int
  reason : String
deriving DecidableEq

/-- Kubernetes object metadata as returned by the cluster API. -/
structure K8sMeta where
  name : String
  namespaceName : String
  creationTimestamp : Option String
deriving DecidableEq

/-- Stubbed outcomes of the cluster-API calls a `create_job` run can make. -/
structure JobEnv where
  readNamespaceResult : Except ApiError Unit
  createNamespaceResult : Except ApiError K8sMeta
  createJobResult : Except ApiError K8sMeta

/-- The cluster-API requests a resource operation sends, in order. -/
inductive ApiCall where
  | readNamespace (ns : String)
  | createNamespace (ns : String)
  | createJob (ns jobName : String)
deriving DecidableEq

/-- The dict `create_job` returns on success. -/
structure JobCreateResult where
  job_name : String
  namespaceName : String
  creation_timestamp : Option String
  status : String
deriving DecidableEq

/-- `EKSOperationsService.create_job`, embedded: reads the target namespace;
only a 404 from that read triggers `create_namespace`; any other read
failure is re-raised unchanged; then the job is created.  Returns the
result (or the exception propagated to the caller) and the request trace. -/
def createJobOp (env : JobEnv) (jobName ns : String) :
    Except ApiError JobCreateResult × List ApiCall :=
  match env.readNamespaceResult with
  | .ok _ =>
    match env.createJobResult with
    | .ok meta =>
        (.ok { job_name := meta.name, namespaceName := meta.namespaceName,
               creation_timestamp := meta.creationTimestamp, status := "created" },
         [ApiCall.readNamespace ns, ApiCall.createJob ns jobName])
    | .error e => (.error e, [ApiCall.readNamespace ns, ApiCall.createJob ns jobName])
  | .error e =>
    if e.status = 404 then
      match env.createNamespaceResult with
      | .ok _ =>
        match env.createJobResult with
        | .ok meta =>
            (.ok { job_name := meta.name, namespaceName := meta.namespaceName,
                   creation_timestamp := meta.creationTimestamp, status := "created" },
             [ApiCall.readNamespace ns, ApiCall.createNamespace ns,
              ApiCall.createJob ns jobName])
        | .error e2 =>
            (.error e2,
             [ApiCall.readNamespace ns, ApiCall.createNamespace ns,
              ApiCall.createJob ns jobName])
      | .error e2 => (.error e2, [ApiCall.readNamespace ns, ApiCall.createNamespace ns])
    else (.error e, [ApiCall.readNamespace ns])

/-- A route-level failure: either the lazy build failed or a cluster-API
exception propagated out of the operation. -/
inductive ServeError where
  | build (e : BuildError)
  | api (e : ApiError)
deriving DecidableEq

/-- One request served by the route layer: `get_eks_service()` then
`service.create_job(...)`.  Nothing in the source ever resets
`_service_instance`, so the state after the call is whatever
`get_eks_service` left there, whatever the operation observed. -/
def serveCreateJob (st : Option Session) (benv : BuildEnv) (jenv : JobEnv)
    (jobName ns : String) :
    Except ServeError JobCreateResult × Option Session × List BuildEvent :=
  match getEksService st benv with
  | (.ok _, st2, evs) =>
    match (createJobOp jenv jobName ns).1 with
    | .ok res => (.ok res, st2, evs)
    | .error e => (.error (.api e), st2, evs)
  | (.error e, st2, evs) => (.error (.build e), st2, evs)

/-- The session `configureClients` produces from `envGood`. -/
def sessionGood : Session :=
  { cluster_endpoint := "https://abc.example"
    ca_cert_data := String.toList "Q0VSVA=="
    token := "k8s-aws4-AAA"
    k8s_batch_api := ⟨⟨{ host := "https://abc.example"
                         ssl_ca_cert := "/tmp/eks_ca_1.crt"
                         api_key := [("authorization", "Bearer k8s-aws4-AAA")]
                         api_key_pfx := [("authorization", "")] }⟩⟩
    k8s_core_api := ⟨⟨{ host := "https://abc.example"
                        ssl_ca_cert := "/tmp/eks_ca_1.crt"
                        api_key := [("authorization", "Bearer k8s-aws4-AAA")]
                        api_key_pfx := [("authorization", "")] }⟩⟩ }

theorem configureClients_envGood : (configureClients envGood).1 = Except.ok sessionGood := rfl

/-- A cluster-API stub whose namespace read rejects the current token. -/
def jenvAuthFail : JobEnv :=
  { readNamespaceResult := .error { status := 401, reason := "Unauthorized" }
    createNamespaceResult := .ok { name := "default", namespaceName := "default"
                                   creationTimestamp := none }
    createJobResult := .ok { name := "j", namespaceName := "default"
                             creationTimestamp := none } }

/-- C2 (amended): an authentication-class failure (401/403) observed by a
resource operation propagates to the caller unchanged and never
invalidates the session: the global instance stays the same session with
the same token, the failing call performs zero builds, and every later
`get_eks_service` call returns that same session with zero builds — no
Stale transition and no rebuild exist in the code. -/
theorem C2_auth_failure_no_rebuild (st : Session) (benv : BuildEnv) (jenv : JobEnv)
    (jobName ns : String) (r : ApiError)
    (hfail : (createJobOp jenv jobName ns).1 = Except.error r)
    (_hauth : r.status = 401 ∨ r.status = 403) :
    (serveCreateJob (some st) benv jenv jobName ns).1 = Except.error (ServeError.api r)
  ∧ (serveCreateJob (some st) benv jenv jobName ns).2.1 = some st
  ∧ countBuilds (serveCreateJob (some st) benv jenv jobName ns).2.2 = 0
  ∧ (∀ benv2, getEksService (some st) benv2 = (Except.ok st, some st, [])) := by
  refine ⟨?_, ?_, ?_, fun benv2 => rfl⟩ <;>
    simp [serveCreateJob, getEksService, hfail, countBuilds]

/-- Witness for C2 (amended) at a concrete session and a concrete 401. -/
theorem C2_auth_failure_no_rebuild_witness :
    (serveCreateJob (some sessionGood) envGood jenvAuthFail "j" "default").1
        = Except.error (ServeError.api { status := 401, reason := "Unauthorized" })
  ∧ (serveCreateJob (some sessionGood) envGood jenvAuthFail "j" "default").2.1
        = some sessionGood :=
  ⟨(C2_auth_failure_no_rebuild sessionGood envGood jenvAuthFail "j" "default"
      { status := 401, reason := "Unauthorized" } rfl (Or.inl rfl)).1,
   (C2_auth_failure_no_rebuild sessionGood envGood jenvAuthFail "j" "default"
      { status := 401, reason := "Unauthorized" } rfl (Or.inl rfl)).2.1⟩

/-- Counterexample to C2 as stated: with a Ready session whose operations
observe a 401, the session is not invalidated — the operation fails, the
same session (same token) remains published, and the next
`get_eks_service` call performs zero rebuilds and serves the very same
credentials. -/
theorem C2_counterexample :
    (serveCreateJob (some sessionGood) envGood jenvAuthFail "j" "default").1
        = Except.error (ServeError.api { status := 401, reason := "Unauthorized" })
  ∧ (serveCreateJob (some sessionGood) envGood jenvAuthFail "j" "default").2.1
        = some sessionGood
  ∧ countBuilds (serveCreateJob (some sessionGood) envGood jenvAuthFail "j" "default").2.2 = 0
  ∧ getEksService (some sessionGood) envGood
      = (Except.ok sessionGood, some sessionGood, []) := by
  refine ⟨rfl, rfl, rfl, rfl⟩

/-- N first-use calls as the single-threaded asyncio event loop executes
them: every route handler is `async def` and the `get_eks_service()` call
path contains no await point, so the loop runs each call's
check-then-build atomically and any concurrent schedule of the N
(identical) calls is some sequential order of them, which this models. -/
def runCalls : Nat → Option Session → BuildEnv →
    List (Except BuildError Session) × Option Session × List BuildEvent
  | 0, st, _ => ([], st, [])
  | n + 1, st, env =>
    let first := getEksService st env
    let rest := runCalls n first.2.1 env
    (first.1 :: rest.1, rest.2.1, first.2.2 ++ rest.2.2)

theorem runCalls_cached (n : Nat) (s : Session) (env : BuildEnv) :
    runCalls n (some s) env = (List.replicate n (Except.ok s), some s, []) := by
  induction n with
  | zero => rfl
  | succ m ih => simp [runCalls, getEksService, ih, List.replicate_succ]

/-- A successful build performs exactly one control-plane fetch and one
token mint. -/
theorem configureClients_ok_counts (env : BuildEnv) (s : Session)
    (h : (configureClients env).1 = Except.ok s) :
    countFetches (configureClients env).2 = 1
  ∧ countMints (configureClients env).2 = 1
  ∧ countBuilds (configureClients env).2 = 1 := by
  rcases hdc : env.describeCluster with msg | ⟨endpoint, caData⟩
  · simp [configureClients, hdc] at h
  · rcases hgt : (generateToken env.clusterName env.region env.getTokenResult).1 with te | token
    · simp [configureClients, hdc, hgt] at h
    · rcases hca : decodeCACert caData with _ | bytes
      · simp [configureClients, hdc, hgt, hca] at h
      · rcases htf : env.tempFile with m | f
        · simp [configureClients, hdc, hgt, hca, htf] at h
        · rcases hco : env.configOutcome with m | u
          · simp [configureClients, hdc, hgt, hca, htf, hco] at h
          · rcases hcl : env.clientsOutcome with m | u
            · simp [configureClients, hdc, hgt, hca, htf, hco, hcl] at h
            · simp [configureClients, hdc, hgt, hca, htf, hco, hcl,
                countFetches, countMints, countBuilds]

/-- C6: N concurrent first-use calls (N ≥ 10), serialized by the event
loop as described at `runCalls`, perform exactly one control-plane fetch,
exactly one token mint, and exactly one build in total, and every caller
receives the session of that single build attempt. -/
theorem C6_single_flight_build (n : Nat) (env : BuildEnv) (s : Session)
    (hn : 10 ≤ n) (hs : (configureClients env).1 = Except.ok s) :
    (runCalls n none env).1 = List.replicate n (Except.ok s)
  ∧ countFetches (runCalls n none env).2.2 = 1
  ∧ countMints (runCalls n none env).2.2 = 1
  ∧ countBuilds (runCalls n none env).2.2 = 1 := by
  have counts := configureClients_ok_counts env s hs
  cases n with
  | zero => omega
  | succ m =>
    rcases hc : configureClients env with ⟨res, evs⟩
    rw [hc] at hs
    simp only at hs
    subst hs
    have hfirst : getEksService none env = (Except.ok s, some s, evs) := by
      simp [getEksService, hc]
    rw [hc] at counts
    simp only [runCalls, hfirst, runCalls_cached, List.append_nil]
    refine ⟨by simp [List.replicate_succ], counts.1, counts.2.1, counts.2.2⟩

/-- Witness for C6 at ten concrete calls against the all-success stubs. -/
theorem C6_single_flight_build_witness :
    (runCalls 10 none envGood).1 = List.replicate 10 (Except.ok sessionGood)
  ∧ countFetches (runCalls 10 none envGood).2.2 = 1 :=
  ⟨(C6_single_flight_build 10 envGood sessionGood (by omega) configureClients_envGood).1,
   (C6_single_flight_build 10 envGood sessionGood (by omega) configureClients_envGood).2.1⟩

/-- C1: `_generate_token` returns exactly the bearer string found at
`status.token` of the structured minting response; whenever that field is
absent, empty, or not a string — including a non-dict response and the empty
structure — it fails, and every such failure is one of the method's own
`ValueError`s (the `TokenMintFailed` family), never a silently returned
empty or wrapper-shaped string. -/
theorem C1_token_shape_validation (c r : String) (mr : Except String PyValue) :
    (∀ t, (generateToken c r mr).1 = Except.ok t ↔
        ∃ resp, mr = Except.ok resp ∧ statusTokenString resp = some t)
  ∧ (∀ resp e, mr = Except.ok resp → (generateToken c r mr).1 = Except.error e →
        isValueError e = true) := by
  cases mr with
  | error msg =>
    constructor
    · intro t
      simp [generateToken]
    · intro resp e h
      simp at h
  | ok resp =>
    constructor
    · intro t
      cases resp with
      | pydict entries =>
        cases hsv : (lookupEntry entries "status").getD (.pydict []) with
        | pydict ses =>
          cases htv : (lookupEntry ses "token").getD .pynone with
          | pystr s =>
            by_cases hs : s = ""
            · subst hs
              simp [generateToken, statusTokenString, hsv, htv, truthy]
            · simp [generateToken, statusTokenString, hsv, htv, truthy, hs]
          | pynone => simp [generateToken, statusTokenString, hsv, htv, truthy]
          | pybool b =>
            cases b <;> simp [generateToken, statusTokenString, hsv, htv, truthy]
          | pyint n =>
            by_cases hn : n = 0 <;>
              simp [generateToken, statusTokenString, hsv, htv, truthy, hn]
          | pylist xs =>
            cases xs <;> simp [generateToken, statusTokenString, hsv, htv, truthy]
          | pydict des =>
            cases des <;> simp [generateToken, statusTokenString, hsv, htv, truthy]
        | pynone => simp [generateToken, statusTokenString, hsv]
        | pybool b => simp [generateToken, statusTokenString, hsv]
        | pyint n => simp [generateToken, statusTokenString, hsv]
        | pystr s => simp [generateToken, statusTokenString, hsv]
        | pylist xs => simp [generateToken, statusTokenString, hsv]
      | pynone => simp [generateToken, statusTokenString]
      | pybool b => simp [generateToken, statusTokenString]
      | pyint n => simp [generateToken, statusTokenString]
      | pystr s => simp [generateToken, statusTokenString]
      | pylist xs => simp [generateToken, statusTokenString]
    · intro resp0 e hr he
      cases hr
      cases resp with
      | pydict entries =>
        cases hsv : (lookupEntry entries "status").getD (.pydict []) with
        | pydict ses =>
          cases htv : (lookupEntry ses "token").getD .pynone with
          | pystr s =>
            by_cases hs : s = ""
            · subst hs
              simp [generateToken, hsv, htv, truthy] at he
              subst he; rfl
            · simp [generateToken, hsv, htv, truthy, hs] at he
          | pynone =>
            simp [generateToken, hsv, htv, truthy] at he
            subst he; rfl
          | pybool b =>
            cases b <;> simp [generateToken, hsv, htv, truthy] at he <;>
              (subst he; rfl)
          | pyint n =>
            by_cases hn : n = 0 <;>
              simp [generateToken, hsv, htv, truthy, hn] at he <;>
              (subst he; rfl)
          | pylist xs =>
            cases xs <;> simp [generateToken, hsv, htv, truthy] at he <;>
              (subst he; rfl)
          | pydict des =>
            cases des <;> simp [generateToken, hsv, htv, truthy] at he <;>
              (subst he; rfl)
        | pynone => simp [generateToken, hsv] at he; subst he; rfl
        | pybool b => simp [generateToken, hsv] at he; subst he; rfl
        | pyint n => simp [generateToken, hsv] at he; subst he; rfl
        | pystr s => simp [generateToken, hsv] at he; subst he; rfl
        | pylist xs => simp [generateToken, hsv] at he; subst he; rfl
      | pynone => simp [generateToken] at he; subst he; rfl
      | pybool b => simp [generateToken] at he; subst he; rfl
      | pyint n => simp [generateToken] at he; subst he; rfl
      | pystr s => simp [generateToken] at he; subst he; rfl
      | pylist xs => simp [generateToken] at he; subst he; rfl

/-- Witness for C1 at the documented ExecCredential shape and at the empty
structure. -/
theorem C1_token_shape_validation_witness :
    (generateToken "demo" "us-east-1"
      (Except.ok (.pydict [("status", .pydict [("token", .pystr "k8s-aws4-AAA")])]))).1
      = Except.ok "k8s-aws4-AAA" :=
  ((C1_token_shape_validation "demo" "us-east-1"
      (Except.ok (.pydict [("status", .pydict [("token", .pystr "k8s-aws4-AAA")])]))).1
    "k8s-aws4-AAA").mpr
    ⟨.pydict [("status", .pydict [("token", .pystr "k8s-aws4-AAA")])], rfl, by decide⟩

/-- `kubernetes.client.V1JobStatus`, as far as `get_job_status` reads it. -/
structure V1JobStatus where
  active : Option Int
  succeeded : Option Int
  failed : Option Int
  start_time : Option String
  completion_time : Option String
deriving DecidableEq

/-- Python `x and x > 0` on an optional count, as a truth value: falsy `x`
(None or 0) gives the falsy `x` itself, otherwise the comparison. -/
def pyAndPos : Option Int → Bool
  | none => false
  | some n => if n = 0 then false else decide (0 < n)

/-- The state classification of `get_job_status`, in source order. -/
def jobStateOf (s : V1JobStatus) : String :=
  if pyAndPos s.succeeded then "completed"
  else if pyAndPos s.failed then "failed"
  else if pyAndPos s.active then "running"
  else "unknown"

/-- Python `x or 0` on an optional count. -/
def orZero : Option Int → Int
  | none => 0
  | some n => if n = 0 then 0 else n

/-- A Job object returned by `read_namespaced_job`. -/
structure JobObject where
  meta : K8sMeta
  status : V1JobStatus
deriving DecidableEq

/-- The dict `get_job_status` returns. -/
structure JobStatusResult where
  job_name : String
  namespaceName : String
  state : String
  active : Int
  succeeded : Int
  failed : Int
  start_time : Option String
  completion_time : Option String
deriving DecidableEq

/-- `EKSOperationsService.get_job_status`, embedded: reads the job, maps a
404 to a job-not-found `ApiException`, re-raises other failures unchanged,
and otherwise classifies the state and formats the counts. -/
def getJobStatus (readResult : Except ApiError JobObject) (jobName ns : String) :
    Except ApiError JobStatusResult :=
  match readResult with
  | .error e =>
      if e.status = 404 then
        .error { status := 404
                 reason := "Job " ++ jobName ++ " not found in namespace " ++ ns }
      else .error e
  | .ok job =>
      .ok { job_name := job.meta.name
            namespaceName := job.meta.namespaceName
            state := jobStateOf job.status
            active := orZero job.status.active
            succeeded := orZero job.status.succeeded
            failed := orZero job.status.failed
            start_time := job.status.start_time
            completion_time := job.status.completion_time }

theorem pyAndPos_iff (o : Option Int) :
    pyAndPos o = true ↔ ∃ n, o = some n ∧ 0 < n := by
  cases o with
  | none => simp [pyAndPos]
  | some n =>
    by_cases h : n = 0
    · subst h; simp [pyAndPos]
    · simp [pyAndPos, h]

/-- C9: `get_job_status` classifies by fixed precedence — `completed` iff
the succeeded count is non-null and positive; else `failed` iff the failed
count is non-null and positive; else `running` iff the active count is
non-null and positive; else `unknown` — and reports every null count as 0
in the returned structure. -/
theorem C9_job_state_precedence (s : V1JobStatus) :
    (jobStateOf s = "completed" ↔ (∃ n, s.succeeded = some n ∧ 0 < n))
  ∧ (jobStateOf s = "failed" ↔
      (¬(∃ n, s.succeeded = some n ∧ 0 < n) ∧ (∃ n, s.failed = some n ∧ 0 < n)))
  ∧ (jobStateOf s = "running" ↔
      (¬(∃ n, s.succeeded = some n ∧ 0 < n) ∧ ¬(∃ n, s.failed = some n ∧ 0 < n)
        ∧ (∃ n, s.active = some n ∧ 0 < n)))
  ∧ (jobStateOf s = "unknown" ↔
      (¬(∃ n, s.succeeded = some n ∧ 0 < n) ∧ ¬(∃ n, s.failed = some n ∧ 0 < n)
        ∧ ¬(∃ n, s.active = some n ∧ 0 < n)))
  ∧ (∀ m jobName ns, getJobStatus (Except.ok ⟨m, s⟩) jobName ns
      = Except.ok { job_name := m.name
                    namespaceName := m.namespaceName
                    state := jobStateOf s
                    active := orZero s.active
                    succeeded := orZero s.succeeded
                    failed := orZero s.failed
                    start_time := s.start_time
                    completion_time := s.completion_time })
  ∧ (s.active = none → orZero s.active = 0)
  ∧ (s.succeeded = none → orZero s.succeeded = 0)
  ∧ (s.failed = none → orZero s.failed = 0) := by
  refine ⟨?_, ?_, ?_, ?_, fun m jobName ns => rfl,
    fun h => by rw [h]; rfl, fun h => by rw [h]; rfl, fun h => by rw [h]; rfl⟩ <;>
  · simp only [← pyAndPos_iff]
    by_cases hs : pyAndPos s.succeeded <;> by_cases hf : pyAndPos s.failed <;>
      by_cases ha : pyAndPos s.active <;>
      simp [jobStateOf, hs, hf, ha]

/-- Witness for C9 at a concrete status with a null active count. -/
theorem C9_job_state_precedence_witness :
    jobStateOf { active := none, succeeded := some 1, failed := none
                 start_time := none, completion_time := none } = "completed" :=
  (C9_job_state_precedence { active := none, succeeded := some 1, failed := none
                             start_time := none, completion_time := none }).1.mpr
    ⟨1, rfl, by omega⟩

/-- C10: `create_job` reads the target namespace first; `create_namespace`
runs iff that read fails with 404 (and then before the job creation); a
read failure with any other status propagates and aborts with neither
namespace nor job created; a successful read never creates the namespace. -/
theorem C10_namespace_autocreate (env : JobEnv) (jobName ns : String) :
    ((ApiCall.createNamespace ns ∈ (createJobOp env jobName ns).2) ↔
      (∃ e, env.readNamespaceResult = Except.error e ∧ e.status = 404))
  ∧ (∀ e, env.readNamespaceResult = Except.error e → e.status ≠ 404 →
      (createJobOp env jobName ns).1 = Except.error e
      ∧ (createJobOp env jobName ns).2 = [ApiCall.readNamespace ns])
  ∧ (∀ e, env.readNamespaceResult = Except.error e → e.status = 404 →
      (createJobOp env jobName ns).2.take 2
        = [ApiCall.readNamespace ns, ApiCall.createNamespace ns])
  ∧ (∀ u, env.readNamespaceResult = Except.ok u →
      (createJobOp env jobName ns).2
        = [ApiCall.readNamespace ns, ApiCall.createJob ns jobName]) := by
  rcases hr : env.readNamespaceResult with e | u
  · by_cases h404 : e.status = 404
    · rcases hcn : env.createNamespaceResult with e2 | m2
      · simp [createJobOp, hr, h404, hcn]
      · rcases hcj : env.createJobResult with e3 | m3 <;>
          simp [createJobOp, hr, h404, hcn, hcj]
    · simp [createJobOp, hr, h404]
  · rcases hcj : env.createJobResult with e3 | m3 <;>
      simp [createJobOp, hr, hcj]

/-- Witness for C10 at a 404 namespace read. -/
theorem C10_namespace_autocreate_witness :
    (createJobOp { readNamespaceResult := .error { status := 404, reason := "NotFound" }
                   createNamespaceResult := .ok { name := "default"
                                                  namespaceName := "default"
                                                  creationTimestamp := none }
                   createJobResult := .ok { name := "j", namespaceName := "default"
                                            creationTimestamp := none } }
        "j" "default").2.take 2
      = [ApiCall.readNamespace "default", ApiCall.createNamespace "default"] :=
  (C10_namespace_autocreate
    { readNamespaceResult := .error { status := 404, reason := "NotFound" }
      createNamespaceResult := .ok { name := "default", namespaceName := "default"
                                     creationTimestamp := none }
      createJobResult := .ok { name := "j", namespaceName := "default"
                               creationTimestamp := none } }
    "j" "default").2.2.1 { status := 404, reason := "NotFound" } rfl rfl

/-- Whether `needle` occurs contiguously inside `hay`. -/
def containsChars (needle : List Char) : List Char → Bool
  | [] => needle.isEmpty
  | c :: rest => isPrefixChars needle (c :: rest) || containsChars needle rest

/-- Whether some log record contains the given string. -/
def logsContain (logs : List String) (needle : String) : Bool :=
  logs.any (fun rec => containsChars needle.toList rec.toList)

/-- A structured credential whose bearer token sits at an unexpected key:
the flat shape `{token: ...}` instead of `{status: {token: ...}}`. -/
def respFlat : PyValue := .pydict [("token", .pystr "k8s-aws4-SECRET")]

theorem isPrefixChars_take (n : List Char) :
    ∀ l : List Char, isPrefixChars n l = isPrefixChars n (l.take n.length) := by
  induction n with
  | nil => intro l; cases l <;> rfl
  | cons a as ih =>
    intro l
    cases l with
    | nil => rfl
    | cons b bs => simp [isPrefixChars, List.take_succ_cons, ih bs]

/-- C8 (amended): on the success path, the minting logs reveal at most the
token's length and its first-20-character prefix — two non-empty tokens
agreeing on length and that prefix produce identical log traces — but on
the missing/empty-token failure path the method logs the complete minting
response verbatim, so any credential value embedded in that response
appears in a log record. -/
theorem C8_credential_logging :
    (∀ c r t1 t2 : String, t1 ≠ "" → t2 ≠ "" →
      t1.toList.length = t2.toList.length → t1.toList.take 20 = t2.toList.take 20 →
      (generateToken c r
          (.ok (.pydict [("status", .pydict [("token", .pystr t1)])]))).2
        = (generateToken c r
          (.ok (.pydict [("status", .pydict [("token", .pystr t2)])]))).2)
  ∧ (∀ (c r : String) (entries ses : List (String × PyValue)),
      (lookupEntry entries "status").getD (.pydict []) = .pydict ses →
      truthy ((lookupEntry ses "token").getD .pynone) = false →
      (generateToken c r (.ok (.pydict entries))).1 = Except.error TokenError.noToken
      ∧ ("ExecCredential response: " ++ pyRepr (.pydict entries))
          ∈ (generateToken c r (.ok (.pydict entries))).2) := by
  constructor
  · intro c r t1 t2 h1 h2 hlen htake
    have hpre : isPrefixChars k8sSigChars t1.toList = isPrefixChars k8sSigChars t2.toList := by
      rw [isPrefixChars_take k8sSigChars t1.toList, isPrefixChars_take k8sSigChars t2.toList]
      have h8 : k8sSigChars.length = 8 := rfl
      have h48 : List.take 8 t1.toList = List.take 8 t2.toList := by
        have h := congrArg (List.take 8) htake
        simp only [List.take_take] at h
        simpa using h
      rw [h8, h48]
    have hlen2 : t1.length = t2.length := hlen
    have htake2 : String.mk (List.take 20 t1.data) = String.mk (List.take 20 t2.data) :=
      congrArg String.mk htake
    have hpre2 : isPrefixChars k8sSigChars t1.data = isPrefixChars k8sSigChars t2.data := hpre
    simp [generateToken, lookupEntry, truthy, h1, h2, tokenSuccessLogs, typeName,
      hlen2, htake2, hpre2]
  · intro c r entries ses hsv hfalsy
    refine ⟨?_, ?_⟩ <;> simp [generateToken, hsv, hfalsy]

/-- Witness for C8 (amended): two same-length tokens sharing their first 20
characters log identically, and an empty `status.token` makes the full
response appear in the log. -/
theorem C8_credential_logging_witness :
    (generateToken "demo" "us-east-1"
        (.ok (.pydict [("status",
          .pydict [("token", .pystr "k8s-aws4-AAAAAAAAAAAAAAXX")])]))).2
      = (generateToken "demo" "us-east-1"
        (.ok (.pydict [("status",
          .pydict [("token", .pystr "k8s-aws4-AAAAAAAAAAAAAAYY")])]))).2
  ∧ ("ExecCredential response: "
        ++ pyRepr (.pydict [("status", .pydict [("token", .pystr "")])]))
      ∈ (generateToken "demo" "us-east-1"
        (.ok (.pydict [("status", .pydict [("token", .pystr "")])]))).2 :=
  ⟨C8_credential_logging.1 "demo" "us-east-1"
      "k8s-aws4-AAAAAAAAAAAAAAXX" "k8s-aws4-AAAAAAAAAAAAAAYY"
      (by decide) (by decide) (by decide) (by decide),
   (C8_credential_logging.2 "demo" "us-east-1"
      [("status", .pydict [("token", .pystr "")])] [("token", .pystr "")]
      rfl rfl).2⟩

/-- Counterexample to C8 as stated: when the minting response carries the
bearer token at an unexpected key, extraction fails (a failure path of
minting), and the full token value — not a bounded prefix, length, or hash
— appears verbatim in a log record. -/
theorem C8_counterexample :
    exceptIsOk (generateToken "demo" "us-east-1" (Except.ok respFlat)).1 = false
  ∧ logsContain (generateToken "demo" "us-east-1" (Except.ok respFlat)).2
      "k8s-aws4-SECRET" = true := by decide

end EKSApp
